import Mathlib

/-!
Verification of the Flappy Kaho game engine (game.js, richer second version,
lines 400-1082 of the concatenated source).

The embedding follows the source closely:
* All coordinates, velocities and timers are rationals; the JS engine computes
  with IEEE doubles, but every claim under verification concerns exact
  comparisons and algebraic relations that are insensitive to that difference.
* The rotation field stores the angle divided by pi.  Every rotation value the
  source ever assigns is a rational multiple of pi (-25*PI/180 on upward
  velocity, increments of 2*PI/180*scaler, a clamp at 90*PI/180, and 0 on
  reset), and every rotation comparison it makes is between two such
  multiples, so dividing through by pi is an exact change of representation.
* The READY-state bob writes 150 + sin(frames*0.05)*5 into bird.y (line 887),
  a transcendental value; the full system model takes the bob offset as an
  explicit function parameter, and the bob is modelled exactly over the reals
  in the ReadyBird development below.
* DOM, canvas drawing, and localStorage writes are side effects with no
  feedback into the game state and are not modelled; localStorage *reads*
  (best-score initialization, line 439) are modelled via parseIntJS below.
-/

namespace FlappyKaho

-- Physics constants of the game (game.js lines 417-426).
namespace PHYSICS

def GRAVITY : ℚ := 0.25

def JUMP : ℚ := -4.6

def PIPE_SPEED : ℚ := 2

def PIPE_SPAWN_RATE : ℚ := 1800

def PIPE_WIDTH : ℚ := 52

def PIPE_GAP : ℚ := 130

def BIRD_SIZE : ℚ := 30

def BIRD_X : ℚ := 50

end PHYSICS

/-- Canvas width in CSS pixels (default 320, game.js line 692). -/
def canvasW : ℚ := 320

/-- Canvas height in CSS pixels (default 480, game.js line 693);
this is the floor coordinate used by checkCollision (line 897). -/
def canvasH : ℚ := 480

/-- The player entity (game.js lines 441-447).  The rotation field stores the
angle divided by pi; see the file header. -/
structure Bird where
  x : ℚ
  y : ℚ
  velocity : ℚ
  radius : ℚ
  rotation : ℚ
deriving DecidableEq, Repr

/-- Initial bird (game.js lines 441-447). -/
def initBird : Bird :=
  { x := PHYSICS.BIRD_X, y := 150, velocity := 0,
    radius := PHYSICS.BIRD_SIZE / 2, rotation := 0 }

/-- An obstacle ("pipe", game.js lines 826-830): x position, gap-top y, and
the passed flag used once to award score. -/
structure Pipe where
  x : ℚ
  y : ℚ
  passed : Bool
deriving DecidableEq, Repr

/-- The game state tag (game.js line 435). -/
inductive GState where
  | READY
  | PLAYING
  | GAME_OVER
deriving DecidableEq, Repr

/-- The mutable game-session state: state tag, frame counter, score, in-memory
best score, obstacle list, player, spawn timer, and the four parallax
background scroll offsets (game.js lines 434-469). -/
structure GameState where
  state : GState
  frames : ℕ
  score : ℕ
  bestScore : ℤ
  pipes : List Pipe
  bird : Bird
  spawnTimer : ℚ
  bgClouds : ℚ
  bgHills : ℚ
  bgTrees : ℚ
  bgGround : ℚ
deriving DecidableEq, Repr

/-- The game state right after initialization, with the best score loaded from
storage as a parameter (game.js lines 434-469). -/
def initGame (best : ℤ) : GameState :=
  { state := .READY, frames := 0, score := 0, bestScore := best,
    pipes := [], bird := initBird, spawnTimer := 0,
    bgClouds := 0, bgHills := 0, bgTrees := 0, bgGround := 0 }

/-- dt cap (game.js line 835): a dt above 100 ms is replaced by the nominal
16 ms, otherwise the raw dt is used. -/
def effectiveDt (dt : ℚ) : ℚ :=
  if dt > 100 then 16 else dt

/-- Frame-rate-normalization scaler (game.js line 838): dt / (1000/60). -/
def scaler (dt : ℚ) : ℚ :=
  dt / (1000 / 60)

/-- Bird physics for one PLAYING tick (game.js lines 841-850): gravity is
accumulated into the velocity, the velocity is integrated into y, and the
rotation snaps to -25 degrees on upward velocity or rotates toward the
90-degree clamp (stored here as multiples of pi: -25/180, 2/180, 90/180). -/
def updateBird (sc : ℚ) (b : Bird) : Bird :=
  let v := b.velocity + PHYSICS.GRAVITY * sc
  let y := b.y + v * sc
  let rot :=
    if v < 0 then (-25 : ℚ) / 180
    else
      let r := b.rotation + 2 / 180 * sc
      if r > 90 / 180 then (90 : ℚ) / 180 else r
  { b with velocity := v, y := y, rotation := rot }

/-- Per-tick scroll advance of the clouds layer (game.js line 853). -/
def cloudsDelta (sc : ℚ) : ℚ := PHYSICS.PIPE_SPEED * 0.3 * sc

/-- Per-tick scroll advance of the hills layer (game.js line 854). -/
def hillsDelta (sc : ℚ) : ℚ := PHYSICS.PIPE_SPEED * 0.5 * sc

/-- Per-tick scroll advance of the trees layer (game.js line 855). -/
def treesDelta (sc : ℚ) : ℚ := PHYSICS.PIPE_SPEED * 0.8 * sc

/-- Per-tick scroll advance of the ground layer (game.js line 856). -/
def groundDelta (sc : ℚ) : ℚ := PHYSICS.PIPE_SPEED * sc

/-- Per-tick horizontal displacement of every obstacle (game.js line 866). -/
def pipeDelta (sc : ℚ) : ℚ := PHYSICS.PIPE_SPEED * sc

/-- Obstacle spawned at the right edge (game.js lines 816-831) with the random
sample in [0,1) passed in explicitly; gapY = floor(rand*(maxPos-minPos+1)) +
minPos where maxPos = canvasH - 50 - PIPE_GAP and minPos = 50. -/
def newPipe (rand : ℚ) : Pipe :=
  let maxPos : ℚ := canvasH - 50 - PHYSICS.PIPE_GAP
  let minPos : ℚ := 50
  { x := canvasW, y := ((⌊rand * (maxPos - minPos + 1)⌋ : ℤ) : ℚ) + minPos,
    passed := false }

/-- One obstacle's move-and-score step inside the pipes forEach (game.js lines
865-877): x decreases by PIPE_SPEED*scaler, and if the pipe is not yet passed
and its trailing edge is now left of the bird, the passed flag is set and one
score point is returned. -/
def stepPipe (sc birdX : ℚ) (p : Pipe) : Pipe × ℕ :=
  let x := p.x - PHYSICS.PIPE_SPEED * sc
  if p.passed = false ∧ x + PHYSICS.PIPE_WIDTH < birdX then
    ({ x := x, y := p.y, passed := true }, 1)
  else
    ({ p with x := x }, 0)

/-- The whole pipes forEach (game.js lines 865-877): every pipe is stepped and
the score increments are accumulated. -/
def stepPipes (sc birdX : ℚ) (ps : List Pipe) : List Pipe × ℕ :=
  let rs := ps.map (stepPipe sc birdX)
  (rs.map Prod.fst, (rs.map Prod.snd).sum)

/-- Off-screen cull (game.js line 880): keep pipes with x + PIPE_WIDTH > -10. -/
def cullPipes (ps : List Pipe) : List Pipe :=
  ps.filter (fun p => decide (p.x + PHYSICS.PIPE_WIDTH > -10))

/-- Left edge of the shrunk player hitbox (game.js line 892). -/
def birdLeft (b : Bird) : ℚ := b.x - b.radius + 4

/-- Right edge of the shrunk player hitbox (game.js line 893). -/
def birdRight (b : Bird) : ℚ := b.x + b.radius - 4

/-- Top edge of the shrunk player hitbox (game.js line 894). -/
def birdTop (b : Bird) : ℚ := b.y - b.radius + 4

/-- Bottom edge of the shrunk player hitbox (game.js line 895). -/
def birdBottom (b : Bird) : ℚ := b.y + b.radius - 4

/-- The obstacle scan of checkCollision (game.js lines 906-920): a for loop
with early return, scanning pipes in order and stopping at the first pipe
whose box horizontally overlaps the shrunk player box while the player's top
edge is above the gap top or its bottom edge is below the gap bottom. -/
def checkPipes (b : Bird) : List Pipe → Bool
  | [] => false
  | p :: rest =>
    if (birdRight b > p.x ∧ birdLeft b < p.x + PHYSICS.PIPE_WIDTH) ∧
       (birdTop b < p.y ∨ birdBottom b > p.y + PHYSICS.PIPE_GAP) then
      true
    else
      checkPipes b rest

/-- checkCollision (game.js lines 891-921): floor/ceiling first (bottom edge
at or below the floor, or top edge at or above y = 0), then the obstacle
scan.  Returns whether gameOver is triggered this tick. -/
def checkCollision (b : Bird) (ps : List Pipe) : Bool :=
  if birdBottom b ≥ canvasH ∨ birdTop b ≤ 0 then true
  else checkPipes b ps

/-- gameOver (game.js lines 923-936): the state becomes GAME_OVER and the best
score is replaced by the session score when strictly exceeded. -/
def gameOver (s : GameState) : GameState :=
  { s with
    state := .GAME_OVER,
    bestScore := if (s.score : ℤ) > s.bestScore then (s.score : ℤ) else s.bestScore }

/-- resetGame (game.js lines 794-808): back to READY with the bird, score,
pipes, spawn timer and frame counter reinitialized. -/
def resetGame (s : GameState) : GameState :=
  { s with
    state := .READY,
    bird := { s.bird with y := 150, velocity := 0, rotation := 0 },
    score := 0,
    pipes := [],
    spawnTimer := 0,
    frames := 0 }

/-- restartGame (game.js lines 810-814): resetGame, then state := PLAYING and
a jump impulse (velocity := JUMP). -/
def restartGame (s : GameState) : GameState :=
  let s' := resetGame s
  { s' with
    state := .PLAYING,
    bird := { s'.bird with velocity := PHYSICS.JUMP } }

/-- update (game.js lines 833-889).  The bob offset added to 150 in the READY
branch (sin(frames*0.05)*5 at line 887) is transcendental, so the full system
model takes it as an explicit function of the frame counter; no claim about
this model depends on its values, and the READY branch is modelled exactly
over the reals in the ReadyBird development.  In the PLAYING branch, in
source order: bird physics, background offsets, spawn timer and spawn, pipe
movement with scoring, off-screen cull, then collision detection. -/
def update (bob : ℕ → ℚ) (dt₀ rand : ℚ) (s : GameState) : GameState :=
  let dt := effectiveDt dt₀
  let sc := scaler dt
  match s.state with
  | .PLAYING =>
    let bird := updateBird sc s.bird
    let st := s.spawnTimer + dt
    let spawned :=
      if st > PHYSICS.PIPE_SPAWN_RATE then (s.pipes ++ [newPipe rand], (0 : ℚ))
      else (s.pipes, st)
    let stepped := stepPipes sc bird.x spawned.1
    let pipes := cullPipes stepped.1
    let s' := { s with
      bird := bird,
      bgClouds := s.bgClouds + cloudsDelta sc,
      bgHills := s.bgHills + hillsDelta sc,
      bgTrees := s.bgTrees + treesDelta sc,
      bgGround := s.bgGround + groundDelta sc,
      spawnTimer := spawned.2,
      pipes := pipes,
      score := s.score + stepped.2 }
    if checkCollision bird pipes then gameOver s' else s'
  | .READY =>
    { s with frames := s.frames + 1,
             bird := { s.bird with y := 150 + bob (s.frames + 1) } }
  | .GAME_OVER => s

/-! ## System model: the game embedded in its event environment

The environment state carries the lazily-created audio context (modelled as
the boolean "has been created", game.js line 642), the tab-visibility flag,
and the reduced-motion preference with its session override (lines 456-458).
Events are the external stimuli the listeners react to (lines 706-767):
the primary input action (pointer down / touch / Space, all routed through
handleInput), the restart control (whose click listener calls restartGame
directly, line 725 — note: with no pause check), an animation frame with its
elapsed time and the random sample a potential spawn would draw, a
visibility change, and the reduced-motion override control.  The restart
control event is modelled as possible only in GAME_OVER because the button
carries the hidden class at all other times (resetGame adds it at line 807,
gameOver removes it at line 935). -/

/-- Full system state: game session plus environment flags. -/
structure Sys where
  game : GameState
  audioCtx : Bool
  isTabActive : Bool
  prefersReducedMotion : Bool
  motionOverride : Bool
deriving DecidableEq, Repr

/-- shouldPause (game.js lines 769-773). -/
def shouldPause (s : Sys) : Bool :=
  if !s.isTabActive then true
  else if s.prefersReducedMotion && !s.motionOverride then true
  else false

/-- handleInput (game.js lines 775-792): ignored entirely while paused;
otherwise the audio context is created (or resumed) and then the state
machine branches: READY starts play, PLAYING applies a jump impulse,
GAME_OVER restarts. -/
def handleInput (s : Sys) : Sys :=
  if shouldPause s then s
  else
    let s := { s with audioCtx := true }
    match s.game.state with
    | .READY => { s with game := { s.game with state := .PLAYING } }
    | .PLAYING =>
      { s with game :=
          { s.game with bird := { s.game.bird with velocity := PHYSICS.JUMP } } }
    | .GAME_OVER => { s with game := restartGame s.game }

/-- External events consumed by the listeners (game.js lines 706-767). -/
inductive Ev where
  | primaryInput
  | restartClick
  | tick (dt rand : ℚ)
  | visibilityChange (hidden : Bool)
  | enableMotion
deriving DecidableEq

/-- One event step of the whole system.  tick is the gameLoop body (game.js
lines 1062-1072), which returns before updating while paused; restartClick
is the restart button listener (line 725), which calls restartGame with no
pause check; visibilityChange and the motion-override control update the
environment flags (lines 731-746). -/
def stepEv (bob : ℕ → ℚ) : Ev → Sys → Sys
  | .primaryInput, s => handleInput s
  | .restartClick, s =>
    if s.game.state = .GAME_OVER then { s with game := restartGame s.game } else s
  | .tick dt rand, s =>
    if shouldPause s then s else { s with game := update bob dt rand s.game }
  | .visibilityChange hidden, s => { s with isTabActive := !hidden }
  | .enableMotion, s => { s with motionOverride := true }

/-- System state right after init (game.js lines 434-469 and 674-687):
READY, no audio context yet, with the environment flags and the loaded best
score as parameters. -/
def initSys (prm tab : Bool) (best : ℤ) : Sys :=
  { game := initGame best, audioCtx := false, isTabActive := tab,
    prefersReducedMotion := prm, motionOverride := false }

/-- Reachability: the system states produced from init by some sequence of
events. -/
def Reach (bob : ℕ → ℚ) (prm tab : Bool) (best : ℤ) : Sys → Prop :=
  Relation.ReflTransGen (fun a b => ∃ e, stepEv bob e a = b) (initSys prm tab best)

/-! ## Exact model of the READY-state bob

The READY branch of update (game.js lines 884-888) increments the frame
counter and writes the bob value 150 + sin(frames*0.05)*5 into bird.y; it
touches nothing else.  The handleInput transition out of READY (lines
784-785) only sets the state tag to PLAYING, so the bird fields at the
moment play starts are exactly the fields after the last READY tick.  Here
this branch is modelled exactly, with y over the reals. -/

/-- The player fields the READY branch can see (bird.y over the reals; the
rotation field again stores the angle divided by pi). -/
structure ReadyBird where
  y : ℝ
  velocity : ℚ
  rotation : ℚ
  frames : ℕ

/-- Bird fields at init (game.js lines 441-447 and line 437). -/
noncomputable def initReadyBird : ReadyBird :=
  { y := 150, velocity := 0, rotation := 0, frames := 0 }

/-- One READY tick (game.js lines 884-888): frames++ then
bird.y = 150 + sin(frames * 0.05) * 5. -/
noncomputable def updateReady (b : ReadyBird) : ReadyBird :=
  { b with frames := b.frames + 1,
           y := 150 + Real.sin ((b.frames + 1 : ℕ) * 0.05) * 5 }

/-- Bird fields after n READY ticks from init. -/
noncomputable def readyTicks : ℕ → ReadyBird
  | 0 => initReadyBird
  | n + 1 => updateReady (readyTicks n)

/-! ## Best-score initialization

game.js line 439: parseInt(localStorage.getItem('flappyKahoBest') || '0').
parseIntJS models the decimal path of the platform parseInt: skip leading
spaces, take an optional sign, then the longest prefix of decimal digits;
with no digits the result is NaN, modelled as none.  (The hexadecimal-prefix
path of parseInt is irrelevant to values this code ever stores and is
omitted.)  The stored value is an Option String, none when the key is
absent; a stored empty string is falsy in JS, so it also falls back to the
literal string 0. -/

/-- Decimal digit accumulator. -/
def digitsVal (ds : List Char) : ℕ :=
  ds.foldl (fun n c => 10 * n + (c.toNat - '0'.toNat)) 0

/-- Model of JS parseInt (decimal path); none models NaN. -/
def parseIntJS (s : String) : Option ℤ :=
  let cs := s.toList.dropWhile (fun c => c = ' ')
  let signed : ℤ × List Char :=
    match cs with
    | '-' :: t => (-1, t)
    | '+' :: t => (1, t)
    | t => (1, t)
  let ds := signed.2.takeWhile Char.isDigit
  if ds.isEmpty then none else some (signed.1 * digitsVal ds)

/-- In-memory best score loaded at init (game.js line 439); none models NaN. -/
def bestScoreInit (stored : Option String) : Option ℤ :=
  parseIntJS (match stored with
    | none => "0"
    | some s => if s = "" then "0" else s)

/-! ## Auxiliary definitions used by the theorems below -/

/-- The per-pipe collision condition of the obstacle scan (game.js lines
906-919), as a proposition: horizontal overlap with the shrunk player box,
and the player's top edge above the gap top or bottom edge below the gap
bottom. -/
def pipeHit (b : Bird) (p : Pipe) : Prop :=
  (birdRight b > p.x ∧ birdLeft b < p.x + PHYSICS.PIPE_WIDTH) ∧
  (birdTop b < p.y ∨ birdBottom b > p.y + PHYSICS.PIPE_GAP)

instance (b : Bird) (p : Pipe) : Decidable (pipeHit b p) := by
  unfold pipeHit; infer_instance

/-- Number of false-to-true transitions of one pipe's passed flag along a
trace of tick scalers (the bird's x never changes in the source, so it is a
single parameter). -/
def riseCount (birdX : ℚ) (p : Pipe) : List ℚ → ℕ
  | [] => 0
  | sc :: rest =>
    (if p.passed = false ∧ (stepPipe sc birdX p).1.passed = true then 1 else 0) +
    riseCount birdX (stepPipe sc birdX p).1 rest

/-- The audio-context invariant: outside READY the audio context has been
created. -/
def AudioInv (s : Sys) : Prop :=
  s.game.state ≠ .READY → s.audioCtx = true

/-- Run a list of events from init. -/
def runEvs (bob : ℕ → ℚ) (prm tab : Bool) (best : ℤ) (l : List Ev) : Sys :=
  l.foldl (fun s e => stepEv bob e s) (initSys prm tab best)

/-- Trivial bob offset used to instantiate theorems at concrete inputs. -/
def bob0 : ℕ → ℚ := fun _ => 0

/-- A concrete GAME_OVER system state with the tab visible (used as a witness
input). -/
def sysGO : Sys :=
  { game := { initGame 0 with state := .GAME_OVER }, audioCtx := true,
    isTabActive := true, prefersReducedMotion := false, motionOverride := false }

/-- A concrete GAME_OVER system state that is paused (tab hidden). -/
def sysPausedGO : Sys :=
  { game := { initGame 0 with state := .GAME_OVER }, audioCtx := true,
    isTabActive := false, prefersReducedMotion := false, motionOverride := false }

/-- A gameplay cycle: one jump followed by five 100 ms frames. -/
def cyc : List Ev :=
  [.primaryInput, .tick 100 0, .tick 100 0, .tick 100 0, .tick 100 0, .tick 100 0]

/-- A concrete event trace: start playing, then 44 frames with a jump every
five frames.  It leaves one obstacle one frame short of being passed. -/
def evList : List Ev :=
  [Ev.primaryInput] ++ (List.replicate 8 cyc).flatten ++
    [Ev.primaryInput, .tick 100 0, .tick 100 0, .tick 100 0, .tick 100 0]

/-- The system state reached by evList: PLAYING, score 0, one obstacle at
x = 8 about to be passed on the next 100 ms frame. -/
def sW : Sys := runEvs bob0 false true 0 evList

/-! ## Theorems

The arithmetic of the rational-number kernel operations is hidden behind
irreducibility markers by default; making them semireducible lets concrete
states be evaluated definitionally in the closed-instance proofs below. -/

section

attribute [local semireducible] Rat.ofScientific Rat.mul Rat.inv Rat.add Rat.sub

set_option maxRecDepth 200000

/-- The obstacle scan returns true exactly when some pipe in the list
satisfies the collision condition. -/
theorem checkPipes_iff (b : Bird) (ps : List Pipe) :
    checkPipes b ps = true ↔ ∃ p ∈ ps, pipeHit b p := by
  induction ps with
  | nil => simp [checkPipes]
  | cons p rest ih =>
    by_cases hc : pipeHit b p
    · have hc' := hc
      unfold pipeHit at hc'
      simp [checkPipes, hc', hc]
    · have hc' := hc
      unfold pipeHit at hc'
      simp only [checkPipes, if_neg hc']
      rw [ih]
      constructor
      · rintro ⟨q, hq, hhit⟩
        exact ⟨q, List.mem_cons_of_mem _ hq, hhit⟩
      · rintro ⟨q, hq, hhit⟩
        rcases List.mem_cons.mp hq with rfl | hq'
        · exact absurd hhit hc
        · exact ⟨q, hq', hhit⟩

/-- Claim C1: while PLAYING, a tick's collision check triggers the GAME_OVER
transition iff, for the player's bounding box shrunk by the fixed margin,
the shrunk bottom edge reaches or exceeds the floor, or the shrunk top edge
reaches or passes the ceiling, or some active obstacle's box horizontally
overlaps the shrunk box while the shrunk top edge is above the gap's top
boundary or the shrunk bottom edge is below the gap's bottom boundary;
moreover the scan stops at the first collision: once a pipe collides, the
result is true no matter what obstacles follow it. -/
theorem checkCollision_spec (b : Bird) (ps : List Pipe) :
    (checkCollision b ps = true ↔
      birdBottom b ≥ canvasH ∨ birdTop b ≤ 0 ∨ ∃ p ∈ ps, pipeHit b p) ∧
    (∀ (p : Pipe) (rest : List Pipe), pipeHit b p →
      checkPipes b (p :: rest) = true) := by
  constructor
  · unfold checkCollision
    by_cases hfc : birdBottom b ≥ canvasH ∨ birdTop b ≤ 0
    · simp [hfc]
      tauto
    · simp only [if_neg hfc, checkPipes_iff]
      tauto
  · intro p rest hhit
    have hc' := hhit
    unfold pipeHit at hc'
    simp [checkPipes, hc']

/-- Witness for C1 at a concrete colliding input: the bird at its initial
position against a pipe whose gap lies below it. -/
theorem checkCollision_spec_witness :
    checkPipes initBird [{ x := 40, y := 200, passed := false }] = true :=
  (checkCollision_spec initBird []).2 { x := 40, y := 200, passed := false } []
    (by decide)

/-- Claim C2: after any game-over, the best score equals the maximum of the
previous best score and the session score; it changes exactly when the
session score strictly exceeds it, and it never decreases. -/
theorem gameOver_best_spec (s : GameState) :
    (gameOver s).bestScore = max s.bestScore (s.score : ℤ) ∧
    ((gameOver s).bestScore ≠ s.bestScore ↔ s.bestScore < (s.score : ℤ)) ∧
    s.bestScore ≤ (gameOver s).bestScore ∧
    (gameOver s).state = .GAME_OVER := by
  have hb : (gameOver s).bestScore =
      if (s.score : ℤ) > s.bestScore then (s.score : ℤ) else s.bestScore := rfl
  refine ⟨?_, ?_, ?_, rfl⟩ <;> rw [hb] <;> split <;> rename_i h <;> omega

/-- Claim C3: restartGame (reached from GAME_OVER both by the restart control
and by the primary input action) performs the full reset followed by a jump
impulse: PLAYING, score 0, empty obstacle list, spawn timer 0, frame counter
0, initial position and rotation, and velocity equal to the jump constant,
which is nonzero. -/
theorem restart_full_reset_spec (g : GameState) (bob : ℕ → ℚ) (sys : Sys)
    (hp : shouldPause sys = false) (hgo : sys.game.state = .GAME_OVER) :
    (restartGame g).state = .PLAYING ∧
    (restartGame g).score = 0 ∧
    (restartGame g).pipes = [] ∧
    (restartGame g).spawnTimer = 0 ∧
    (restartGame g).frames = 0 ∧
    (restartGame g).bird.y = initBird.y ∧
    (restartGame g).bird.rotation = initBird.rotation ∧
    (restartGame g).bird.x = g.bird.x ∧
    (restartGame g).bird.velocity = PHYSICS.JUMP ∧
    PHYSICS.JUMP ≠ 0 ∧
    (stepEv bob .primaryInput sys).game = restartGame sys.game ∧
    (stepEv bob .restartClick sys).game = restartGame sys.game := by
  refine ⟨rfl, rfl, rfl, rfl, rfl, rfl, rfl, rfl, rfl, by decide, ?_, ?_⟩
  · simp only [stepEv, handleInput, hp, Bool.false_eq_true, if_false]
    rw [show ({ sys with audioCtx := true } : Sys).game.state = sys.game.state from rfl,
      hgo]
  · simp [stepEv, hgo]

/-- Witness for C3 at a concrete GAME_OVER, non-paused system state. -/
theorem restart_full_reset_witness :
    (stepEv bob0 .primaryInput sysGO).game = restartGame sysGO.game ∧
    (stepEv bob0 .restartClick sysGO).game = restartGame sysGO.game := by
  obtain ⟨-, -, -, -, -, -, -, -, -, -, h1, h2⟩ :=
    restart_full_reset_spec (initGame 0) bob0 sysGO (by decide) (by decide)
  exact ⟨h1, h2⟩

/-- Counterexample to claim C4 as stated: in a paused system state (tab
hidden) in GAME_OVER, activating the restart control is not ignored — it
restarts the game, because the restart button's click listener calls
restartGame directly without the pause check. -/
theorem input_pause_claim_cex :
    shouldPause sysPausedGO = true ∧
    sysPausedGO.game.state = .GAME_OVER ∧
    (stepEv bob0 .restartClick sysPausedGO).game.state = .PLAYING ∧
    stepEv bob0 .restartClick sysPausedGO ≠ sysPausedGO := by
  refine ⟨rfl, rfl, rfl, fun h => ?_⟩
  have h2 : GState.PLAYING = GState.GAME_OVER := congrArg (fun t => t.game.state) h
  exact (by decide : GState.PLAYING ≠ GState.GAME_OVER) h2

/-- Claim C4 as amended: while the paused condition holds, the primary input
action is ignored entirely (the whole system state is unchanged) in every
state; the explicit restart control, however, is not gated by the paused
condition: activated in GAME_OVER it performs the full restart regardless of
pause. -/
theorem input_pause_amended_spec (bob : ℕ → ℚ) (s : Sys) :
    (shouldPause s = true → stepEv bob .primaryInput s = s) ∧
    (s.game.state = .GAME_OVER →
      (stepEv bob .restartClick s).game = restartGame s.game) := by
  constructor
  · intro h
    simp [stepEv, handleInput, h]
  · intro h
    simp [stepEv, h]

/-- Witness for the amended C4 at the concrete paused GAME_OVER state. -/
theorem input_pause_amended_witness :
    stepEv bob0 .primaryInput sysPausedGO = sysPausedGO ∧
    (stepEv bob0 .restartClick sysPausedGO).game = restartGame sysPausedGO.game :=
  ⟨(input_pause_amended_spec bob0 sysPausedGO).1 (by decide),
   (input_pause_amended_spec bob0 sysPausedGO).2 (by decide)⟩

/-- Claim C5: for every dt at least 0 fed to the update step, a dt above the
100 ms clamp threshold makes the effective step the nominal 16 ms fallback
(never the raw dt), while a dt at or below the threshold is used raw; the
effective step, and hence the per-tick integration scaler, is bounded. -/
theorem effectiveDt_clamp_spec (dt : ℚ) (_h : 0 ≤ dt) :
    (100 < dt → effectiveDt dt = 16 ∧ effectiveDt dt ≠ dt) ∧
    (dt ≤ 100 → effectiveDt dt = dt) ∧
    effectiveDt dt ≤ 100 ∧
    scaler (effectiveDt dt) ≤ 6 := by
  have hs : scaler (effectiveDt dt) = effectiveDt dt * (3 / 50) := by
    unfold scaler
    ring
  by_cases hdt : dt > 100
  · have he : effectiveDt dt = 16 := by
      unfold effectiveDt
      rw [if_pos hdt]
    refine ⟨fun _ => ⟨he, ?_⟩, fun hle => absurd hdt (not_lt.mpr hle), ?_, ?_⟩
    · rw [he]
      intro heq
      linarith
    · rw [he]
      norm_num
    · rw [hs, he]
      norm_num
  · have he : effectiveDt dt = dt := by
      unfold effectiveDt
      rw [if_neg hdt]
    push_neg at hdt
    refine ⟨fun hgt => absurd hgt (not_lt.mpr hdt), fun _ => he, by rw [he]; exact hdt, ?_⟩
    rw [hs, he]
    linarith

/-- Witness for C5 above and below the clamp threshold. -/
theorem effectiveDt_clamp_witness :
    effectiveDt 150 = 16 ∧ effectiveDt 50 = 50 :=
  ⟨((effectiveDt_clamp_spec 150 (by decide)).1 (by decide)).1,
   (effectiveDt_clamp_spec 50 (by decide)).2.1 (by decide)⟩

/-- The pipe step never clears the passed flag. -/
theorem stepPipe_passed_mono (sc birdX : ℚ) (p : Pipe) (h : p.passed = true) :
    (stepPipe sc birdX p).1.passed = true := by
  simp [stepPipe, h]

/-- A pipe whose flag is already set produces no further transitions along any
trace. -/
theorem riseCount_of_passed (birdX : ℚ) :
    ∀ (l : List ℚ) (p : Pipe), p.passed = true → riseCount birdX p l = 0 := by
  intro l
  induction l with
  | nil => intro p _; rfl
  | cons sc rest ih =>
    intro p hp
    unfold riseCount
    rw [if_neg (by simp [hp]), ih _ (stepPipe_passed_mono sc birdX p hp)]

/-- Claim C6: the passed flag is set exactly on the tick in which the
obstacle's trailing edge has scrolled past the player's x (and stays set if
it already was); the per-pipe score return is 1 exactly on a false-to-true
transition; the per-tick score increment equals the number of pipes whose
flag newly became set; and along any trace of ticks a pipe's flag makes at
most one false-to-true transition. -/
theorem pipe_passed_spec (sc birdX : ℚ) (p : Pipe) :
    ((stepPipe sc birdX p).1.passed = true ↔
      p.passed = true ∨
        p.x - PHYSICS.PIPE_SPEED * sc + PHYSICS.PIPE_WIDTH < birdX) ∧
    ((stepPipe sc birdX p).2 =
      if p.passed = false ∧ (stepPipe sc birdX p).1.passed = true then 1 else 0) ∧
    (∀ ps : List Pipe,
      (stepPipes sc birdX ps).1.countP (·.passed) =
        ps.countP (·.passed) + (stepPipes sc birdX ps).2) ∧
    (∀ l : List ℚ, riseCount birdX p l ≤ 1) := by
  have hstep : ∀ q : Pipe,
      ((stepPipe sc birdX q).1.passed = true ↔
        q.passed = true ∨
          q.x - PHYSICS.PIPE_SPEED * sc + PHYSICS.PIPE_WIDTH < birdX) ∧
      ((stepPipe sc birdX q).2 =
        if q.passed = false ∧ (stepPipe sc birdX q).1.passed = true then 1
        else 0) := by
    intro q
    rcases hq : q.passed <;>
      by_cases hx : q.x - PHYSICS.PIPE_SPEED * sc + PHYSICS.PIPE_WIDTH < birdX <;>
      simp [stepPipe, hq, hx]
  refine ⟨(hstep p).1, (hstep p).2, ?_, ?_⟩
  · intro ps
    simp only [stepPipes, List.map_map]
    induction ps with
    | nil => rfl
    | cons q rest ih =>
      have hkey : (if (stepPipe sc birdX q).1.passed = true then 1 else 0) =
          (if q.passed = true then 1 else 0) + (stepPipe sc birdX q).2 := by
        rcases hqp : q.passed <;>
          by_cases hx : q.x - PHYSICS.PIPE_SPEED * sc + PHYSICS.PIPE_WIDTH < birdX <;>
          simp [stepPipe, hqp, hx]
      simp only [List.map_cons, List.countP_cons, List.sum_cons, Function.comp_apply]
      rw [ih, hkey]
      ring
  · intro l
    induction l generalizing p with
    | nil => exact Nat.zero_le 1
    | cons sc' rest ih =>
      unfold riseCount
      by_cases hp : p.passed = true
      · rw [if_neg (by simp [hp]),
          riseCount_of_passed birdX rest _ (stepPipe_passed_mono sc' birdX p hp)]
        exact Nat.zero_le 1
      · have hp' : p.passed = false := by simpa using hp
        by_cases h2 : (stepPipe sc' birdX p).1.passed = true
        · rw [if_pos ⟨hp', h2⟩, riseCount_of_passed birdX rest _ h2]
        · rw [if_neg (by simp [h2])]
          simpa using ih (stepPipe sc' birdX p).1

/-- Evaluation for C7: the best-score initialization maps an absent stored
value to 0 but maps a malformed stored value (here the string abc) to NaN,
not to any integer and in particular not to 0 — the silent recovery the
specification requires is missing for malformed values. -/
theorem bestScore_malformed_nan :
    bestScoreInit none = some 0 ∧
    bestScoreInit (some "") = some 0 ∧
    bestScoreInit (some "abc") = none ∧
    ∀ z : ℤ, bestScoreInit (some "abc") ≠ some z := by
  have habc : bestScoreInit (some "abc") = none := by decide
  exact ⟨by decide, by decide, habc, fun z => by simp [habc]⟩

/-- Counterexample to claim C8 as stated: on a real 16 ms tick the ground
layer's scroll advance equals the obstacles' displacement — it is not
strictly slower, so the background layers are not all slower than the
obstacles. -/
theorem parallax_claim_cex :
    groundDelta (scaler (effectiveDt 16)) = pipeDelta (scaler (effectiveDt 16)) ∧
    0 < pipeDelta (scaler (effectiveDt 16)) ∧
    ¬ groundDelta (scaler (effectiveDt 16)) < pipeDelta (scaler (effectiveDt 16)) := by
  refine ⟨rfl, by decide, ?_⟩
  rw [show groundDelta (scaler (effectiveDt 16)) = pipeDelta (scaler (effectiveDt 16))
    from rfl]
  exact lt_irrefl _

/-- Claim C8 as amended: in every PLAYING tick with a positive scaler, the
layer ordering is strict — clouds slower than hills, hills slower than
trees, trees slower than ground — and clouds, hills and trees advance
strictly more slowly than the obstacles, while the ground advances at
exactly the obstacle displacement (not more slowly). -/
theorem parallax_amended_spec (sc : ℚ) (h : 0 < sc) :
    cloudsDelta sc < hillsDelta sc ∧
    hillsDelta sc < treesDelta sc ∧
    treesDelta sc < groundDelta sc ∧
    groundDelta sc = pipeDelta sc ∧
    cloudsDelta sc < pipeDelta sc ∧
    hillsDelta sc < pipeDelta sc ∧
    treesDelta sc < pipeDelta sc := by
  unfold cloudsDelta hillsDelta treesDelta groundDelta pipeDelta PHYSICS.PIPE_SPEED
  norm_num
  refine ⟨by linarith, by linarith, by linarith, by linarith, by linarith, by linarith⟩

/-- Witness for the amended C8 at scaler 1. -/
theorem parallax_amended_witness :
    cloudsDelta 1 < hillsDelta 1 ∧
    hillsDelta 1 < treesDelta 1 ∧
    treesDelta 1 < groundDelta 1 ∧
    groundDelta 1 = pipeDelta 1 ∧
    cloudsDelta 1 < pipeDelta 1 ∧
    hillsDelta 1 < pipeDelta 1 ∧
    treesDelta 1 < pipeDelta 1 :=
  parallax_amended_spec 1 (by decide)

/-- Counterexample to claim C9 as stated: after a single READY tick the
player's vertical position at the moment play starts is the bobbed value
150 + sin(0.05)*5, which differs from the fixed initial value 150 (the
READY-to-PLAYING transition only flips the state tag and does not restore
the bird). -/
theorem ready_bob_claim_cex : (readyTicks 1).y ≠ initReadyBird.y := by
  have h1 : (readyTicks 1).y = 150 + Real.sin 0.05 * 5 := by
    show (updateReady initReadyBird).y = _
    simp [updateReady, initReadyBird]
  have hpos : 0 < Real.sin 0.05 := by
    apply Real.sin_pos_of_pos_of_lt_pi
    · norm_num
    · have h3 := Real.pi_gt_three
      linarith
  have h2 : initReadyBird.y = 150 := rfl
  rw [h1, h2]
  intro heq
  linarith

/-- Claim C9 as amended: for any number n of READY ticks before play starts,
the player's velocity and rotation still equal their fixed initial values,
while the vertical position equals the bobbed value 150 + sin(0.05*n)*5 —
dependent on the bob phase, but always within 5 of the initial 150. -/
theorem ready_bob_amended_spec (n : ℕ) :
    (readyTicks n).velocity = initReadyBird.velocity ∧
    (readyTicks n).rotation = initReadyBird.rotation ∧
    (readyTicks n).frames = n ∧
    (readyTicks n).y = 150 + Real.sin (n * 0.05) * 5 ∧
    |(readyTicks n).y - 150| ≤ 5 := by
  have key : ∀ m : ℕ,
      (readyTicks m).velocity = initReadyBird.velocity ∧
      (readyTicks m).rotation = initReadyBird.rotation ∧
      (readyTicks m).frames = m ∧
      (readyTicks m).y = 150 + Real.sin (m * 0.05) * 5 := by
    intro m
    induction m with
    | zero =>
      refine ⟨rfl, rfl, rfl, ?_⟩
      simp [readyTicks, initReadyBird]
    | succ k ih =>
      obtain ⟨hv, hr, hf, _⟩ := ih
      refine ⟨?_, ?_, ?_, ?_⟩
      · show (updateReady (readyTicks k)).velocity = _
        simpa [updateReady] using hv
      · show (updateReady (readyTicks k)).rotation = _
        simpa [updateReady] using hr
      · show (updateReady (readyTicks k)).frames = _
        simp [updateReady, hf]
      · show (updateReady (readyTicks k)).y = _
        simp [updateReady, hf]
  obtain ⟨hv, hr, hf, hy⟩ := key n
  have habs : |Real.sin ((n : ℝ) * 0.05)| ≤ 1 :=
    abs_le.mpr ⟨Real.neg_one_le_sin _, Real.sin_le_one _⟩
  have h2 : (150 : ℝ) + Real.sin ((n : ℝ) * 0.05) * 5 - 150 =
      Real.sin ((n : ℝ) * 0.05) * 5 := by ring
  refine ⟨hv, hr, hf, hy, ?_⟩
  rw [hy, h2, abs_mul, show |(5 : ℝ)| = 5 by norm_num]
  linarith

/-- A READY game state stays READY across update (the READY branch only bobs
the bird and advances the frame counter). -/
theorem update_state_of_ready (bob : ℕ → ℚ) (dt r : ℚ) (g : GameState)
    (h : g.state = .READY) : (update bob dt r g).state = .READY := by
  simp [update, h]

/-- The score only changes in the PLAYING branch of update. -/
theorem update_score_of_ne_playing (bob : ℕ → ℚ) (dt r : ℚ) (g : GameState)
    (h : g.state ≠ .PLAYING) : (update bob dt r g).score = g.score := by
  rcases hg : g.state with _ | _ | _
  · simp [update, hg]
  · exact absurd hg h
  · simp [update, hg]

/-- Every event step preserves the audio-context invariant. -/
theorem audioInv_step (bob : ℕ → ℚ) (e : Ev) (s : Sys) (h : AudioInv s) :
    AudioInv (stepEv bob e s) := by
  cases e with
  | primaryInput =>
    by_cases hp : shouldPause s = true
    · simpa [stepEv, handleInput, hp] using h
    · have hp' : shouldPause s = false := by simpa using hp
      rcases hg : s.game.state with _ | _ | _ <;>
        simp [stepEv, handleInput, hp', hg, AudioInv]
  | restartClick =>
    by_cases hg : s.game.state = .GAME_OVER
    · have hctx : s.audioCtx = true := h (by rw [hg]; simp)
      simp [stepEv, hg, AudioInv, hctx]
    · simpa [stepEv, hg] using h
  | tick dt r =>
    by_cases hp : shouldPause s = true
    · simpa [stepEv, hp] using h
    · have hp' : shouldPause s = false := by simpa using hp
      simp only [stepEv, hp', Bool.false_eq_true, if_false]
      intro hne
      by_cases hg : s.game.state = .READY
      · exact absurd (update_state_of_ready bob dt r s.game hg) (by simpa using hne)
      · exact h hg
  | visibilityChange hidden =>
    intro hne
    exact h (by simpa [stepEv] using hne)
  | enableMotion =>
    intro hne
    exact h (by simpa [stepEv] using hne)

/-- Every reachable system state satisfies the audio-context invariant. -/
theorem audioInv_reach (bob : ℕ → ℚ) (prm tab : Bool) (best : ℤ) (s : Sys)
    (h : Reach bob prm tab best s) : AudioInv s := by
  have h' : Relation.ReflTransGen (fun a b => ∃ e, stepEv bob e a = b)
      (initSys prm tab best) s := h
  clear h
  induction h' with
  | refl => intro hne; exact absurd rfl hne
  | tail hab hbc ih =>
    obtain ⟨e, rfl⟩ := hbc
    exact audioInv_step bob e _ ih

/-- Any list of events leads from init to a reachable state. -/
theorem reach_runEvs (bob : ℕ → ℚ) (prm tab : Bool) (best : ℤ) (l : List Ev) :
    Reach bob prm tab best (runEvs bob prm tab best l) := by
  have key : ∀ (t : List Ev) (s : Sys),
      Relation.ReflTransGen (fun a b => ∃ e, stepEv bob e a = b) s
        (t.foldl (fun s e => stepEv bob e s) s) := by
    intro t
    induction t with
    | nil => intro s; exact Relation.ReflTransGen.refl
    | cons e t' ih =>
      intro s
      exact Relation.ReflTransGen.head ⟨e, rfl⟩ (ih (stepEv bob e s))
  exact key l (initSys prm tab best)

/-- Claim C10: in every reachable execution, a tick that produces a scoring
event (and hence invokes the score-sound routine) happens in the PLAYING
state with the lazily-created audio context already non-null, because
PLAYING is only ever first entered through a non-paused primary input
action, which creates the audio context first — so the unguarded
audio-context dereference in playScoreSound never faults. -/
theorem score_sound_audioCtx_spec (bob : ℕ → ℚ) (prm tab : Bool) (best : ℤ)
    (s : Sys) (hreach : Reach bob prm tab best s) (dt rand : ℚ)
    (hscore : (stepEv bob (.tick dt rand) s).game.score > s.game.score) :
    s.game.state = .PLAYING ∧ s.audioCtx = true := by
  have hp : shouldPause s = false := by
    by_contra hpc
    have hp' : shouldPause s = true := by simpa using hpc
    rw [show stepEv bob (.tick dt rand) s = s from by simp [stepEv, hp']] at hscore
    exact lt_irrefl _ hscore
  have hst : s.game.state = .PLAYING := by
    by_contra hne
    have heq := update_score_of_ne_playing bob dt rand s.game hne
    rw [show (stepEv bob (.tick dt rand) s).game = update bob dt rand s.game from by
      simp [stepEv, hp]] at hscore
    omega
  exact ⟨hst, audioInv_reach bob prm tab best s hreach (by rw [hst]; simp)⟩

/-- Witness for C10: a concrete 45-frame trace from init in which the next
100 ms frame passes an obstacle and scores; the theorem yields that the
state is PLAYING and the audio context is live there. -/
theorem score_sound_audioCtx_witness :
    sW.game.state = .PLAYING ∧ sW.audioCtx = true :=
  score_sound_audioCtx_spec bob0 false true 0 sW
    (reach_runEvs bob0 false true 0 evList) 100 0 (by decide)

end

end FlappyKaho
